import Mathlib

/-!
Verification development for the multi-agent system in
src/multi_agent_system.py.

We shallowly embed the capability-registry core: the path handling and
filesystem tools built by MCPIntegration, the configuration loader, the
registry build (create_tool_functions, get_available_tools), agent creation
(MultiAgentSystem.create_agent), and the round-robin turn order.

Modelling conventions:
- A filesystem path is its list of components (the Python code manipulates
  pathlib.Path values; "../outside.txt" is ["..", "outside.txt"]).
- The operating system resolves "." and ".." components at I/O time; we model
  that resolution with resolvePath, applied at each filesystem operation.
  The model covers relative path arguments (the ones the tools receive).
- The filesystem is a pair of association lists: files (resolved path to
  content) and directories (resolved paths). The OS error text embedded in
  the except-branch messages of the Python tools is abstracted to a fixed
  placeholder, since no property depends on it.
- Python dicts preserve insertion order; we model them as association lists.
-/

namespace MultiAgentSystemModel

/-- One step of OS-side path resolution: "." is dropped, ".." pops the last
component (at the root it stays at the root), anything else is appended. -/
def pushComp (acc : List String) (c : String) : List String :=
  if c = "." then acc
  else if c = ".." then acc.dropLast
  else acc ++ [c]

/-- The joined-and-resolved path of a tool path argument: the Python code
computes Path("workspace") / p and the OS resolves the result relative to
the process working directory. -/
def resolvePath (p : List String) : List String :=
  ("workspace" :: p).foldl pushComp []

/-- A resolved path is inside the sandbox root iff its first component is
the workspace directory. -/
def insideSandbox (q : List String) : Bool :=
  q.head? = some "workspace"

/-- Render a component-list path back to the string form the Python code
interpolates into its result messages. -/
def renderPath (p : List String) : String :=
  String.intercalate "/" p

/-- All strict ancestors of a path, shortest first ([] is the working
directory). These are the directories Path.mkdir(parents=True) ensures. -/
def ancestors : List String → List (List String)
  | [] => []
  | c :: rest => [] :: (ancestors rest).map (c :: ·)

/-- Association-list lookup keyed by resolved path. -/
def lookupFile (k : List String) : List (List String × String) → Option String
  | [] => none
  | (k₂, v) :: rest => if k₂ = k then some v else lookupFile k rest

/-- Association-list insert-or-overwrite keyed by resolved path. -/
def upsertFile (k : List String) (v : String) :
    List (List String × String) → List (List String × String)
  | [] => [(k, v)]
  | (k₂, v₂) :: rest => if k₂ = k then (k, v) :: rest else (k₂, v₂) :: upsertFile k v rest

/-- The filesystem state seen by the tools: regular files with their content,
and the set of existing directories, both keyed by resolved path. -/
structure FS where
  files : List (List String × String)
  dirs : List (List String)
deriving DecidableEq

/-- The filesystem of a fresh checkout: no files, only the process working
directory (the empty resolved path). -/
def FS.empty : FS := ⟨[], [[]]⟩

/-- Writing content at a resolved path, as Path.mkdir(parents=True,
exist_ok=True) on the parent followed by Path.write_text: fails (raising an
OSError in Python) when the target is the working directory, an existing
directory, or when an ancestor is occupied by a regular file; otherwise
creates the missing ancestor directories and creates or overwrites the file. -/
def FS.write (fs : FS) (q : List String) (c : String) : Option FS :=
  if q = [] then none
  else if q ∈ fs.dirs then none
  else if (ancestors q).any (fun d => (lookupFile d fs.files).isSome) then none
  else some ⟨upsertFile q c fs.files, fs.dirs ++ ancestors q⟩

/-- The names of the entries directly inside directory q, as iterdir yields
them (order follows the state lists; the OS order is unspecified anyway). -/
def FS.children (fs : FS) (q : List String) : List String :=
  ((fs.files.map Prod.fst) ++ fs.dirs).filterMap
    (fun e => if e.dropLast = q ∧ e ≠ [] then e.getLast? else none)

/-- The read_file tool closure built by
MCPIntegration._create_file_read_function: joins the argument under
"workspace", returns the content when the target exists as a file, a
caught-exception message when it exists as a directory (read_text raises
there), and a not-found message otherwise. Total: the Python try/except
never lets an exception past the tool boundary. -/
def read_file (file_path : List String) (fs : FS) : String :=
  let q := resolvePath file_path
  match lookupFile q fs.files with
  | some c => c
  | none =>
    if q ∈ fs.dirs then "Error reading file: [OSError]"
    else "File not found: " ++ renderPath file_path

/-- The write_file tool closure built by
MCPIntegration._create_file_write_function: joins the argument under
"workspace", creates missing parent directories, writes the content
(overwriting), and reports success; any raised OSError is caught and
rendered as an error message with the filesystem unchanged. Returns the
result string together with the updated filesystem. -/
def write_file (file_path : List String) (content : String) (fs : FS) :
    String × FS :=
  let q := resolvePath file_path
  match fs.write q content with
  | some fs₂ => ("File written successfully: " ++ renderPath file_path, fs₂)
  | none => ("Error writing file: [OSError]", fs)

/-- The list_files tool closure built by
MCPIntegration._create_file_list_function: joins the argument under
"workspace"; when the target exists and is a directory, lists the entry
names, otherwise reports the directory as not found. Total (try/except). -/
def list_files (directory : List String) (fs : FS) : String :=
  let q := resolvePath directory
  if q ∈ fs.dirs then
    "Files in " ++ renderPath directory ++ ": " ++
      String.intercalate ", " (fs.children q)
  else "Directory not found: " ++ renderPath directory

/-- A tool-server entry under the "servers" key of mcp_servers.json; the
Python code reads the fields with .get and a default, modelled as total
fields. env is opaque pass-through metadata. -/
structure ServerConfig where
  command : String
  args : List String
  description : String
  env : List (String × String)
deriving DecidableEq

/-- A sample server configuration value for concrete instances. -/
def sampleServerConfig : ServerConfig := ⟨"npx", [], "demo server", []⟩

/-- How MCPIntegration.load_config finds the descriptor resource at
config_path: absent, present but not valid JSON, or parsed, in which case
the mapping under the "servers" key is carried (a parsed file without that
key is valid [] via .get("servers", \x7b\x7d)). -/
inductive Resource
  | absent
  | malformed
  | valid (servers : List (String × ServerConfig))
deriving DecidableEq

/-- The error that actually escapes load_config on malformed JSON: the
uncaught json.JSONDecodeError from json.load. -/
inductive LoadError
  | jsonDecodeError
deriving DecidableEq

namespace MCPIntegration

/-- MCPIntegration.load_config: when the config file exists it is parsed and
the "servers" mapping stored (a JSON decode failure propagates); when it
does not exist, a warning is logged and the instance proceeds with the
empty mapping. -/
def load_config : Resource → Except LoadError (List (String × ServerConfig))
  | .absent => .ok []
  | .malformed => .error .jsonDecodeError
  | .valid servers => .ok servers

/-- The entries MCPIntegration.get_available_tools returns, one per
configured server. -/
structure ToolInfo where
  name : String
  description : String
  command : String
  args : List String
deriving DecidableEq

/-- MCPIntegration.get_available_tools: one entry per server, in dict
iteration order, copying name, description, command and args. -/
def get_available_tools (servers : List (String × ServerConfig)) :
    List ToolInfo :=
  servers.map (fun s => ⟨s.1, s.2.description, s.2.command, s.2.args⟩)

/-- The six concrete tool closures the registry can build; the Python dict
maps each tool name to one of these. -/
inductive ToolFn
  | read_file
  | write_file
  | list_files
  | github_search
  | github_list_repos
  | github_get_file
deriving DecidableEq

/-- The key each tool closure is registered under in create_tool_functions. -/
def toolKey : ToolFn → String
  | .read_file => "read_file"
  | .write_file => "write_file"
  | .list_files => "list_files"
  | .github_search => "github_search"
  | .github_list_repos => "github_list_repos"
  | .github_get_file => "github_get_file"

/-- Dict key membership, as the Python expression "fs" in self.servers. -/
def containsKey (k : String) (servers : List (String × ServerConfig)) : Bool :=
  servers.any (fun s => s.1 = k)

/-- The file-system tool entries added when the "fs" server is configured. -/
def fsTools : List (String × ToolFn) :=
  [("read_file", .read_file), ("write_file", .write_file),
   ("list_files", .list_files)]

/-- The GitHub tool entries added when the "github" server is configured. -/
def githubTools : List (String × ToolFn) :=
  [("github_search", .github_search), ("github_list_repos", .github_list_repos),
   ("github_get_file", .github_get_file)]

/-- MCPIntegration.create_tool_functions: starts from the empty dict, adds
the three file-system tools when a server named "fs" is configured, then the
three GitHub tools when a server named "github" is configured; every other
server name contributes nothing. -/
def create_tool_functions (servers : List (String × ServerConfig)) :
    List (String × ToolFn) :=
  (if containsKey "fs" servers then fsTools else []) ++
    (if containsKey "github" servers then githubTools else [])

end MCPIntegration

open MCPIntegration

/-- The AgentConfig dataclass (the opaque model_client handle is out of
scope and omitted). -/
structure AgentConfig where
  name : String
  role : String
  system_message : String
deriving DecidableEq

/-- The AssistantAgent value create_agent returns, restricted to the parts
this core sets: name, the enhanced system message (modelled as its list of
text lines, indentation and blank lines abstracted), and the bound tool
closures in binding order. -/
structure Agent where
  name : String
  system_message : List String
  tools : List ToolFn
deriving DecidableEq

/-- The fixed usage-hint block hard-coded in the enhanced system message of
MultiAgentSystem.create_agent; it lists all six known tools whatever the
registry built. -/
def usageHints : List String :=
  ["- read_file(file_path): Read file contents from workspace",
   "- write_file(file_path, content): Write content to files in workspace",
   "- list_files(directory): List files in workspace directory",
   "- github_search(query): Search GitHub repositories",
   "- github_list_repos(username): List GitHub repositories",
   "- github_get_file(repo, file_path, branch): Get file contents from GitHub repo"]

/-- The standing instruction closing every enhanced system message. -/
def collaborateInstruction : String :=
  "Always collaborate effectively with other agents and provide clear, actionable responses."

/-- The enhanced system message assembled by MultiAgentSystem.create_agent:
the caller-supplied base message, the Available-tools line joining the
registry keys, the fixed usage-hint block, and the standing instruction. -/
def enhancedSystemMessage (base : String) (available_tools : List String) :
    List String :=
  [base,
   "Available tools: " ++ String.intercalate ", " available_tools,
   "You can use these tools to accomplish tasks:"]
  ++ usageHints
  ++ [collaborateInstruction]

/-- The MultiAgentSystem state relevant to the core: the server mapping its
MCPIntegration loaded (the Groq client handle, agents dict and team are
orthogonal to the claims). -/
structure MultiAgentSystem where
  servers : List (String × ServerConfig)
deriving DecidableEq

namespace MultiAgentSystem

/-- self.tool_functions, computed once in __init__ from the loaded servers. -/
def tool_functions (sys : MultiAgentSystem) : List (String × ToolFn) :=
  create_tool_functions sys.servers

/-- MultiAgentSystem.create_agent: builds the enhanced system message from
the registry keys and returns an AssistantAgent bound to the full list of
registry tool closures. It takes no tool-name request and has no failure
path. -/
def create_agent (sys : MultiAgentSystem) (config : AgentConfig) : Agent :=
  { name := config.name
    system_message :=
      enhancedSystemMessage config.system_message (sys.tool_functions.map Prod.fst)
    tools := sys.tool_functions.map Prod.snd }

/-- MultiAgentSystem.get_available_tools: the registry keys. -/
def get_available_tools (sys : MultiAgentSystem) : List String :=
  sys.tool_functions.map Prod.fst

end MultiAgentSystem

/-- The participant order of setup_research_team: list(self.agents.values())
of the insertion-ordered agents dict built on lines 318-327. -/
def researchTeamNames : List String :=
  ["Researcher", "Analyst", "TechnicalExpert", "Coordinator"]

/-- The participant order of setup_development_team (lines 404-415). -/
def developmentTeamNames : List String :=
  ["Developer", "Architect", "Tester", "DevOps"]

/-- Modelled from the spec: the turn loop of RoundRobinGroupChat, which the
source takes from the external autogen library (not part of this
repository). Spec section 4.4: the agent active at 0-indexed turn i is
agents[i mod A], and each turn appends exactly one message; the trace lists
the speaker of each executed turn. -/
def roundRobinTrace (agents : List String) (turns : Nat) : List String :=
  (List.range turns).map (fun i => agents.getD (i % agents.length) "")

/-- The capability-binding failure named by spec section 7. -/
inductive CapabilityError
  | capabilityUnavailable
deriving DecidableEq

/-- Modelled from the spec: CapabilityRegistry.resolve(name) of spec
section 4.2 returns the Tool or fails with CapabilityUnavailable if no such
tool was registered. The source has no resolve step (create_agent consumes
no tool names); this definition renders the words of the spec so the code
can be compared against them. -/
def resolveToolSpec (registry : List (String × ToolFn)) (n : String) :
    Except CapabilityError ToolFn :=
  match registry.find? (fun e => e.1 = n) with
  | some e => .ok e.2
  | none => .error .capabilityUnavailable

/-- Modelled from the spec: the resolution phase of
AgentFactory.createAgent in spec section 4.3, which resolves each requested
tool name and fails the whole creation on the first unresolvable one. -/
def createAgentSpec (registry : List (String × ToolFn))
    (toolNames : List String) : Except CapabilityError (List ToolFn) :=
  toolNames.mapM (resolveToolSpec registry)

/-! Helper lemmas, shared by the claim theorems below. -/

theorem lookupFile_upsertFile_self (k : List String) (v : String) :
    ∀ l, lookupFile k (upsertFile k v l) = some v
  | [] => by simp [upsertFile, lookupFile]
  | (k₂, v₂) :: rest => by
    by_cases h : k₂ = k
    · simp [upsertFile, lookupFile, h]
    · simp [upsertFile, lookupFile, h, lookupFile_upsertFile_self k v rest]

/-- Under the no-obstruction hypotheses, FS.write succeeds and its result
holds the written content at the written path. -/
theorem FS.write_spec (fs : FS) (q : List String) (c : String)
    (hroot : q ≠ []) (hdir : q ∉ fs.dirs)
    (hanc : ∀ d ∈ ancestors q, lookupFile d fs.files = none) :
    fs.write q c = some ⟨upsertFile q c fs.files, fs.dirs ++ ancestors q⟩ := by
  have hany : ((ancestors q).any (fun d => (lookupFile d fs.files).isSome)) = false := by
    simp only [List.any_eq_false]
    intro d hd
    simp [hanc d hd]
  simp [FS.write, hroot, hdir, hany]

/-- In every registry the code builds, each entry's key is the canonical
name of the tool closure it maps to. -/
theorem toolKey_create_tool_functions (servers : List (String × ServerConfig)) :
    (create_tool_functions servers).map (fun e => toolKey e.2) =
      (create_tool_functions servers).map Prod.fst := by
  unfold create_tool_functions
  by_cases h1 : containsKey "fs" servers <;>
    by_cases h2 : containsKey "github" servers <;>
      simp [h1, h2, fsTools, githubTools, toolKey]

/-! Claim C1 -/

/-- C1 counterexample: the path argument "../outside.txt" resolves outside
the sandbox root, yet write_file on the empty filesystem performs the I/O,
creates the file at the escaped location outside.txt, and returns the
success string, not a failure string; no PathEscapeError exists. -/
theorem C1_counterexample :
    insideSandbox (resolvePath ["..", "outside.txt"]) = false ∧
    (write_file ["..", "outside.txt"] "x" FS.empty).1 =
      "File written successfully: ../outside.txt" ∧
    lookupFile ["outside.txt"]
      (write_file ["..", "outside.txt"] "x" FS.empty).2.files = some "x" := by
  decide

/-- C1 amended: the file-system tools join their path argument under the
workspace directory with no escape check: for any path whose resolution
lies outside the sandbox root (and is not blocked by an existing directory
or file-shadowed ancestor), write_file still creates the file at the
escaped resolved path and returns the success string. -/
theorem C1_amended (fs : FS) (p : List String) (c : String)
    (hroot : resolvePath p ≠ [])
    (hdir : resolvePath p ∉ fs.dirs)
    (hanc : ∀ d ∈ ancestors (resolvePath p), lookupFile d fs.files = none)
    (hout : insideSandbox (resolvePath p) = false) :
    (write_file p c fs).1 = "File written successfully: " ++ renderPath p ∧
    lookupFile (resolvePath p) (write_file p c fs).2.files = some c := by
  have hw := FS.write_spec fs (resolvePath p) c hroot hdir hanc
  constructor
  · simp [write_file, hw]
  · simp [write_file, hw, lookupFile_upsertFile_self]

/-- C1 amended, witnessed at the spec's own example input. -/
theorem C1_amended_witness :
    (write_file ["..", "outside.txt"] "x" FS.empty).1 =
      "File written successfully: " ++ renderPath ["..", "outside.txt"] ∧
    lookupFile (resolvePath ["..", "outside.txt"])
      (write_file ["..", "outside.txt"] "x" FS.empty).2.files = some "x" :=
  C1_amended FS.empty ["..", "outside.txt"] "x"
    (by decide) (by decide) (by decide) (by decide)

/-! Claim C2 -/

/-- C2 counterexample: on an absent descriptor resource, load_config does
not fail with a ConfigurationError; it succeeds with the empty server
mapping (the source merely logs a warning) and the system proceeds. -/
theorem C2_counterexample :
    MCPIntegration.load_config Resource.absent = Except.ok [] := rfl

/-- C2 amended: load_config produces the mapping under the servers key when
the resource parses; an absent resource is not fatal (the loader proceeds
with the empty mapping); a malformed resource fails with the propagated
JSON decode error, not a dedicated ConfigurationError. -/
theorem C2_amended :
    MCPIntegration.load_config Resource.absent = Except.ok [] ∧
    MCPIntegration.load_config Resource.malformed =
      Except.error LoadError.jsonDecodeError ∧
    ∀ servers, MCPIntegration.load_config (Resource.valid servers) =
      Except.ok servers :=
  ⟨rfl, rfl, fun _ => rfl⟩

/-! Claim C3 -/

/-- C3: every file-system tool returns a result string instead of raising:
read_file on a missing path yields the not-found message, list_files on a
missing or non-directory path yields its not-found message, and write_file
always yields either the success string or the caught-error string (the
tools are total functions into String, the embedding of the catch-all
try/except at the tool boundary). -/
theorem C3_soft_fail (p d : List String) (fs : FS)
    (hmiss : lookupFile (resolvePath p) fs.files = none)
    (hnodir : resolvePath p ∉ fs.dirs)
    (hd : resolvePath d ∉ fs.dirs) :
    read_file p fs = "File not found: " ++ renderPath p ∧
    list_files d fs = "Directory not found: " ++ renderPath d ∧
    ∀ p₂ c₂ fs₂, (write_file p₂ c₂ fs₂).1 =
        "File written successfully: " ++ renderPath p₂ ∨
      (write_file p₂ c₂ fs₂).1 = "Error writing file: [OSError]" := by
  refine ⟨?_, ?_, ?_⟩
  · simp [read_file, hmiss, hnodir]
  · simp [list_files, hd]
  · intro p₂ c₂ fs₂
    rcases hw : fs₂.write (resolvePath p₂) c₂ with _ | fs₃
    · right
      simp [write_file, hw]
    · left
      simp [write_file, hw]

/-- C3, witnessed on the fresh filesystem: reading missing.txt and listing
the absent directory sub both return their not-found messages. -/
theorem C3_soft_fail_witness :
    read_file ["missing.txt"] FS.empty =
      "File not found: " ++ renderPath ["missing.txt"] ∧
    list_files ["sub"] FS.empty =
      "Directory not found: " ++ renderPath ["sub"] ∧
    ∀ p₂ c₂ fs₂, (write_file p₂ c₂ fs₂).1 =
        "File written successfully: " ++ renderPath p₂ ∨
      (write_file p₂ c₂ fs₂).1 = "Error writing file: [OSError]" :=
  C3_soft_fail ["missing.txt"] ["sub"] FS.empty (by decide) (by decide) (by decide)

/-! Claim C4 -/

/-- C4: for a path resolving inside the sandbox (whose resolved target is
not an existing directory and has no ancestor shadowed by a regular file),
write_file reports success — creating the missing intermediate directories
and overwriting any existing content at the target — and a subsequent
read_file of the same path returns exactly the written content. -/
theorem C4_round_trip (fs : FS) (p : List String) (c : String)
    (hin : insideSandbox (resolvePath p) = true)
    (hdir : resolvePath p ∉ fs.dirs)
    (hanc : ∀ d ∈ ancestors (resolvePath p), lookupFile d fs.files = none) :
    read_file p ((write_file p c fs).2) = c ∧
    (write_file p c fs).1 = "File written successfully: " ++ renderPath p ∧
    ∀ d ∈ ancestors (resolvePath p), d ∈ (write_file p c fs).2.dirs := by
  have hroot : resolvePath p ≠ [] := by
    intro h
    rw [h] at hin
    simp [insideSandbox] at hin
  have hw := FS.write_spec fs (resolvePath p) c hroot hdir hanc
  refine ⟨?_, ?_, ?_⟩
  · simp [read_file, write_file, hw, lookupFile_upsertFile_self]
  · simp [write_file, hw]
  · intro d hd
    simp [write_file, hw, hd]

/-- C4, witnessed: writing hello to notes.txt on the fresh filesystem
succeeds and reading notes.txt back returns hello. -/
theorem C4_round_trip_witness :
    read_file ["notes.txt"] ((write_file ["notes.txt"] "hello" FS.empty).2) =
      "hello" ∧
    (write_file ["notes.txt"] "hello" FS.empty).1 =
      "File written successfully: " ++ renderPath ["notes.txt"] ∧
    ∀ d ∈ ancestors (resolvePath ["notes.txt"]),
      d ∈ (write_file ["notes.txt"] "hello" FS.empty).2.dirs :=
  C4_round_trip FS.empty ["notes.txt"] "hello" (by decide) (by decide) (by decide)

/-! Claim C5 -/

/-- C5: the registry build is driven by capability-group membership: the
three file-system tool entries are present exactly when a server named fs
is configured, the three GitHub tool entries exactly when a server named
github is configured, and any other server name leaves the built registry
unchanged (ignored without error). -/
theorem C5_capability_groups (servers : List (String × ServerConfig)) :
    ((("read_file", ToolFn.read_file) ∈ create_tool_functions servers ∧
      ("write_file", ToolFn.write_file) ∈ create_tool_functions servers ∧
      ("list_files", ToolFn.list_files) ∈ create_tool_functions servers) ↔
      containsKey "fs" servers = true) ∧
    ((("github_search", ToolFn.github_search) ∈ create_tool_functions servers ∧
      ("github_list_repos", ToolFn.github_list_repos) ∈ create_tool_functions servers ∧
      ("github_get_file", ToolFn.github_get_file) ∈ create_tool_functions servers) ↔
      containsKey "github" servers = true) ∧
    ∀ k cfg, k ≠ "fs" → k ≠ "github" →
      create_tool_functions ((k, cfg) :: servers) = create_tool_functions servers := by
  refine ⟨?_, ?_, ?_⟩
  · by_cases h1 : containsKey "fs" servers <;>
      by_cases h2 : containsKey "github" servers <;>
        simp [create_tool_functions, h1, h2, fsTools, githubTools]
  · by_cases h1 : containsKey "fs" servers <;>
      by_cases h2 : containsKey "github" servers <;>
        simp [create_tool_functions, h1, h2, fsTools, githubTools]
  · intro k cfg hk1 hk2
    have e1 : containsKey "fs" ((k, cfg) :: servers) = containsKey "fs" servers := by
      simp [containsKey, hk1]
    have e2 : containsKey "github" ((k, cfg) :: servers) = containsKey "github" servers := by
      simp [containsKey, hk2]
    simp [create_tool_functions, e1, e2]

/-- C5, witnessed: an unrecognized server named zzz changes nothing in the
registry built from the fs-only configuration. -/
theorem C5_capability_groups_witness :
    create_tool_functions (("zzz", sampleServerConfig) ::
        [("fs", sampleServerConfig)]) =
      create_tool_functions [("fs", sampleServerConfig)] :=
  (C5_capability_groups [("fs", sampleServerConfig)]).2.2
    "zzz" sampleServerConfig (by decide) (by decide)

/-! Claim C6 -/

/-- C6: for a well-formed descriptor set of size N, get_available_tools
returns exactly N entries, whose names are the configuration keys in config
iteration order, each entry carrying its server's description. -/
theorem C6_list_tools (servers : List (String × ServerConfig)) (N : Nat)
    (hN : servers.length = N)
    (hnodup : (servers.map Prod.fst).Nodup) :
    (get_available_tools servers).length = N ∧
    (get_available_tools servers).map ToolInfo.name = servers.map Prod.fst ∧
    (get_available_tools servers).map (fun t => (t.name, t.description)) =
      servers.map (fun s => (s.1, s.2.description)) := by
  refine ⟨?_, ?_, ?_⟩
  · simp [get_available_tools, hN]
  · simp [get_available_tools, List.map_map]
  · simp [get_available_tools, List.map_map]

/-- C6, witnessed on a two-server descriptor set. -/
theorem C6_list_tools_witness :
    (get_available_tools [("fs", sampleServerConfig),
        ("github", sampleServerConfig)]).length = 2 ∧
    (get_available_tools [("fs", sampleServerConfig),
        ("github", sampleServerConfig)]).map ToolInfo.name =
      [("fs", sampleServerConfig), ("github", sampleServerConfig)].map Prod.fst ∧
    (get_available_tools [("fs", sampleServerConfig),
        ("github", sampleServerConfig)]).map (fun t => (t.name, t.description)) =
      [("fs", sampleServerConfig), ("github", sampleServerConfig)].map
        (fun s => (s.1, s.2.description)) :=
  C6_list_tools [("fs", sampleServerConfig), ("github", sampleServerConfig)] 2
    (by decide) (by decide)

/-! Claim C7 -/

/-- C7 counterexample: with an empty server configuration the registry never
builds read_file — the spec's resolve step would fail with
CapabilityUnavailable — yet create_agent succeeds: the agent exists, with
the requested name, an empty bound tool list, and a prompt that still
advertises the unbuilt read_file tool. There is no fail-fast resolution
step and no failure path in agent creation. -/
theorem C7_counterexample :
    resolveToolSpec (MultiAgentSystem.mk []).tool_functions "read_file" =
      Except.error CapabilityError.capabilityUnavailable ∧
    ((MultiAgentSystem.mk []).create_agent ⟨"A", "role", "base"⟩).name = "A" ∧
    ((MultiAgentSystem.mk []).create_agent ⟨"A", "role", "base"⟩).tools = [] ∧
    "- read_file(file_path): Read file contents from workspace" ∈
      ((MultiAgentSystem.mk []).create_agent ⟨"A", "role", "base"⟩).system_message := by
  refine ⟨rfl, rfl, rfl, ?_⟩
  decide

/-- C7 amended: agent creation takes no requested tool names and performs no
registry resolution; it always succeeds, binding the full registry closure
list (whose entries are exactly the registry's names, in registry order), so
no CapabilityUnavailable failure can occur at creation time. -/
theorem C7_amended (sys : MultiAgentSystem) (config : AgentConfig) :
    (sys.create_agent config).name = config.name ∧
    (sys.create_agent config).tools = sys.tool_functions.map Prod.snd ∧
    (sys.create_agent config).tools.map toolKey = sys.tool_functions.map Prod.fst := by
  refine ⟨rfl, rfl, ?_⟩
  show (sys.tool_functions.map Prod.snd).map toolKey = sys.tool_functions.map Prod.fst
  rw [List.map_map]
  exact toolKey_create_tool_functions sys.servers

/-! Claim C8 -/

/-- C8 counterexample: in a system configured with only the fs server, the
bound tools are the three file-system tools, yet the created agent's system
message still contains the usage-hint line for github_search — a tool that
is not bound — so the catalog is not a catalog of exactly the bound tools. -/
theorem C8_counterexample :
    "- github_search(query): Search GitHub repositories" ∈
      ((MultiAgentSystem.mk [("fs", sampleServerConfig)]).create_agent
        ⟨"A", "role", "base"⟩).system_message ∧
    "github_search" ∉
      ((MultiAgentSystem.mk [("fs", sampleServerConfig)]).create_agent
        ⟨"A", "role", "base"⟩).tools.map toolKey := by
  decide

/-- C8 amended: the effective system message is the caller-supplied base
message, then a line enumerating exactly the bound tools' names in
bound-tools order, then a fixed six-line usage-hint block covering all six
known tools whether bound or not, then the standing collaborate
instruction. -/
theorem C8_amended (sys : MultiAgentSystem) (config : AgentConfig) :
    (sys.create_agent config).system_message.head? = some config.system_message ∧
    (sys.create_agent config).system_message.get? 1 =
      some ("Available tools: " ++ String.intercalate ", "
        ((sys.create_agent config).tools.map toolKey)) ∧
    (∀ h ∈ usageHints, h ∈ (sys.create_agent config).system_message) ∧
    (sys.create_agent config).system_message.getLast? = some collaborateInstruction := by
  refine ⟨rfl, ?_, ?_, ?_⟩
  · have hkeys : (sys.create_agent config).tools.map toolKey =
        sys.tool_functions.map Prod.fst := by
      show (sys.tool_functions.map Prod.snd).map toolKey = _
      rw [List.map_map]
      exact toolKey_create_tool_functions sys.servers
    rw [hkeys]
    rfl
  · intro h hh
    simp [MultiAgentSystem.create_agent, enhancedSystemMessage, hh]
  · show (enhancedSystemMessage config.system_message
      (sys.tool_functions.map Prod.fst)).getLast? = some collaborateInstruction
    rw [enhancedSystemMessage]
    exact List.getLast?_concat _

/-- C8 amended, witnessed on the fs-only system: the base message heads the
prompt and the read_file usage hint is present in it. -/
theorem C8_amended_witness :
    ((MultiAgentSystem.mk [("fs", sampleServerConfig)]).create_agent
        ⟨"A", "role", "base"⟩).system_message.head? = some "base" ∧
    "- read_file(file_path): Read file contents from workspace" ∈
      ((MultiAgentSystem.mk [("fs", sampleServerConfig)]).create_agent
        ⟨"A", "role", "base"⟩).system_message :=
  ⟨(C8_amended (MultiAgentSystem.mk [("fs", sampleServerConfig)])
      ⟨"A", "role", "base"⟩).1,
   (C8_amended (MultiAgentSystem.mk [("fs", sampleServerConfig)])
      ⟨"A", "role", "base"⟩).2.2.1 _ (by decide)⟩

/-! Claim C9 -/

/-- C9: in the round-robin turn loop over a non-empty agent list, the
speaker of each executed turn i below the executed turn count is
agents[i mod A]. -/
theorem C9_round_robin (agents : List String) (turns i : Nat)
    (hA : agents ≠ []) (hi : i < turns) :
    (roundRobinTrace agents turns).get? i = agents.get? (i % agents.length) := by
  have hlen : 0 < agents.length := List.length_pos.mpr hA
  have hmod : i % agents.length < agents.length := Nat.mod_lt _ hlen
  rw [roundRobinTrace, List.get?_map, List.get?_range hi]
  simp [List.getD_eq_get?, List.getElem?_eq_getElem hmod]

/-- C9, witnessed on the research-team participant order: the speaker of
turn 5 in a 6-turn session is participant 5 mod 4 = 1, the Analyst. -/
theorem C9_round_robin_witness :
    (roundRobinTrace researchTeamNames 6).get? 5 =
      researchTeamNames.get? (5 % researchTeamNames.length) ∧
    researchTeamNames.get? (5 % researchTeamNames.length) = some "Analyst" :=
  ⟨C9_round_robin researchTeamNames 6 5 (by decide) (by decide), by decide⟩

/-! Claim C10 -/

/-- C10: create_agent always binds the full registry closure list, so any
two agents created from the same system instance — whatever their role,
name or base message — have identical bound tool lists, namely the whole
registry's values. -/
theorem C10_uniform_binding (sys : MultiAgentSystem) (c₁ c₂ : AgentConfig) :
    (sys.create_agent c₁).tools = (sys.create_agent c₂).tools ∧
    (sys.create_agent c₁).tools = sys.tool_functions.map Prod.snd :=
  ⟨rfl, rfl⟩

end MultiAgentSystemModel
